import Mathlib

/-!
Verification of the ekdsend-go SDK request-execution pipeline against its
specification.  The Go source is shallowly embedded: pure helpers become Lean
functions, the stateful request loop becomes a recursive function over an
abstract transport (a function from the attempt index to that attempt's
result), and Go errors become constructors of an inductive result type.
External library behaviour (the JSON codec `encoding/json`, the HTTP
transport) is passed in as function parameters, since it is not code of this
repository.
-/

/-- Package-level constants from the client file. -/
def Version : String := "1.1.0"

/-- Default base URL constant from the client file. -/
def DefaultBaseURL : String := "https://es.ekddigital.com/v1"

/-- `maxRetries := 3` in `Client.Request`. -/
def maxRetries : Nat := 3

/-- A minimal JSON value domain for the `map[string]interface{}` detail map
carried by validation errors.  JSON numbers are modelled as integers; no claim
inspects numeric detail values. -/
inductive JsonVal where
  | null
  | boolV (b : Bool)
  | numV (n : Int)
  | strV (s : String)
  | arrV (xs : List JsonVal)
  | objV (fields : List (String × JsonVal))

/-- `EKDSendError`, the base error record (errors file): message, HTTP status
code, machine code, request-correlation id. -/
structure EKDSendError where
  Message : String
  StatusCode : Nat
  Code : String
  RequestID : String

/-- The error-envelope struct that `Client.handleError` unmarshals the body
into: `{"error": {"message", "code", "details", "retry_after"}}`.  Fields the
body omits get Go zero values, so an `ErrorEnvelope` value always has all four
fields. -/
structure ErrorEnvelope where
  message : String
  code : String
  details : List (String × JsonVal)
  retryAfter : Int

/-- The closed set of error values `Client.handleError` can return:
`*ValidationError`, `*AuthenticationError`, `*NotFoundError`,
`*RateLimitError`, or the base `*EKDSendError` (the generic case and the
malformed-body fallback). -/
inductive APIError where
  | validation (e : EKDSendError) (Errors : List (String × JsonVal))
  | authentication (e : EKDSendError)
  | notFound (e : EKDSendError)
  | rateLimit (e : EKDSendError) (RetryAfter : Int)
  | base (e : EKDSendError)

/-- `Client.handleError`: unmarshal the body into the envelope (the codec
`unmarshalEnv` is `encoding/json`, passed as a parameter; `none` models an
unmarshal failure, which is what any malformed or empty body produces), fall
back to a generic error on failure, otherwise map the status code. -/
def handleError (unmarshalEnv : String → Option ErrorEnvelope)
    (statusCode : Nat) (body : String) (requestID : String) : APIError :=
  match unmarshalEnv body with
  | none =>
    .base ⟨"API request failed", statusCode, "UNKNOWN_ERROR", requestID⟩
  | some env =>
    if statusCode = 400 then
      .validation ⟨env.message, 400, "VALIDATION_ERROR", requestID⟩ env.details
    else if statusCode = 401 then
      .authentication ⟨env.message, 401, "AUTHENTICATION_ERROR", requestID⟩
    else if statusCode = 404 then
      .notFound ⟨env.message, 404, env.code, requestID⟩
    else if statusCode = 429 then
      .rateLimit ⟨env.message, 429, "RATE_LIMIT_EXCEEDED", requestID⟩ env.retryAfter
    else .base ⟨env.message, statusCode, env.code, requestID⟩

/-- An HTTP response as the executor observes it: status code, body bytes
(already read), and the `x-request-id` header. -/
structure HTTPResponse where
  statusCode : Nat
  body : String
  requestID : String

/-- The result of one `httpClient.Do` call: a transport-level failure with its
message, or a response. -/
inductive TransportResult where
  | failure (msg : String)
  | response (resp : HTTPResponse)

/-- What the retry loop did: its final outcome, the number of
`httpClient.Do` invocations, and the seconds slept between attempts, in
order. -/
structure LoopResult where
  outcome : TransportResult
  attempts : Nat
  sleeps : List Nat

/-- The retry loop of `Client.Request`, recursing on the number of retries
still allowed (`remaining = maxRetries - attempt`).  Each level performs one
`Do`; on a transport failure or a retryable status (429 or >= 500) with
retries left it sleeps `1 << attempt` seconds and recurses; at the last
attempt a transport failure is returned as the final error and a retryable
status falls through (break) with the last response. -/
def retryFrom (doReq : Nat → TransportResult) (attempt : Nat) :
    Nat → LoopResult
  | 0 =>
    match doReq attempt with
    | .failure msg => ⟨.failure msg, 1, []⟩
    | .response resp => ⟨.response resp, 1, []⟩
  | remaining + 1 =>
    match doReq attempt with
    | .failure _ =>
      let r := retryFrom doReq (attempt + 1) remaining
      ⟨r.outcome, r.attempts + 1, 2 ^ attempt :: r.sleeps⟩
    | .response resp =>
      if resp.statusCode = 429 ∨ 500 ≤ resp.statusCode then
        let r := retryFrom doReq (attempt + 1) remaining
        ⟨r.outcome, r.attempts + 1, 2 ^ attempt :: r.sleeps⟩
      else ⟨.response resp, 1, []⟩

/-- The whole `for attempt := 0; attempt <= maxRetries` loop. -/
def executeWithRetries (doReq : Nat → TransportResult) : LoopResult :=
  retryFrom doReq 0 maxRetries

/-- The outcome of `Client.Request`, one constructor per distinct `return`
site: rate-limiter wait failure, body-marshal failure, transport failure after
retries, a typed API error from `handleError`, a response-decode failure, or
success carrying the final value of the caller's destination. -/
inductive RequestResult (α : Type) where
  | rateLimiterError
  | marshalError
  | transportError (msg : String)
  | apiError (e : APIError)
  | decodeError
  | success (dest : Option α)

/-- A full trace of one `Client.Request` call: its returned value, the number
of HTTP sends performed, and the seconds slept between attempts. -/
structure RequestTrace (α : Type) where
  result : RequestResult α
  attempts : Nat
  sleeps : List Nat

/-- The response-processing tail of `Client.Request` after the retry loop
(the `io.ReadAll` of the body is modelled as succeeding; no claim concerns a
read failure): statuses >= 400 go to `handleError`; otherwise, when the
destination is non-nil and the body non-empty the body is unmarshalled into
the destination (`unmarshalDest` is the `encoding/json` codec for the
destination type), and otherwise the destination is left as the caller
supplied it. -/
def requestCore {α : Type} (doReq : Nat → TransportResult)
    (unmarshalEnv : String → Option ErrorEnvelope)
    (unmarshalDest : String → Option α) (dest : Option α) : RequestTrace α :=
  let lr := executeWithRetries doReq
  match lr.outcome with
  | .failure msg => ⟨.transportError msg, lr.attempts, lr.sleeps⟩
  | .response resp =>
    if 400 ≤ resp.statusCode then
      ⟨.apiError (handleError unmarshalEnv resp.statusCode resp.body resp.requestID),
        lr.attempts, lr.sleeps⟩
    else
      match dest with
      | some d =>
        if 0 < resp.body.length then
          match unmarshalDest resp.body with
          | none => ⟨.decodeError, lr.attempts, lr.sleeps⟩
          | some v => ⟨.success (some v), lr.attempts, lr.sleeps⟩
        else ⟨.success (some d), lr.attempts, lr.sleeps⟩
      | none => ⟨.success none, lr.attempts, lr.sleeps⟩

/-- `Client.Request`.  `limiterOK` is whether `rateLimiter.Wait(ctx)`
returned nil (false models the caller's cancellation firing during the permit
wait); `body`/`marshal` model the optional request body and `json.Marshal`
on it.  Order matches the source: permit wait, marshal, then the send loop
and response handling. -/
def clientRequest {α β : Type} (limiterOK : Bool) (body : Option β)
    (marshal : β → Option String) (doReq : Nat → TransportResult)
    (unmarshalEnv : String → Option ErrorEnvelope)
    (unmarshalDest : String → Option α) (dest : Option α) : RequestTrace α :=
  if limiterOK then
    match body with
    | none => requestCore doReq unmarshalEnv unmarshalDest dest
    | some b =>
      match marshal b with
      | none => ⟨.marshalError, 0, []⟩
      | some _ => requestCore doReq unmarshalEnv unmarshalDest dest
  else ⟨.rateLimiterError, 0, []⟩

/-- `json.Marshal` succeeds on the request body when one is present. -/
def marshalOK {β : Type} (body : Option β) (marshal : β → Option String) : Prop :=
  ∀ b, body = some b → (marshal b).isSome = true

/-- The reduction Go 64-bit `int` arithmetic applies on overflow: wrap the
mathematical value modulo 2^64 into the signed range [-2^63, 2^63). -/
def wrap64 (n : Int) : Int := (n + 2 ^ 63) % 2 ^ 64 - 2 ^ 63

/-- On values already inside the signed 64-bit range the wrap is the
identity. -/
theorem wrap64_eq_self (n : Int) (h1 : -(2 ^ 63) ≤ n) (h2 : n < 2 ^ 63) :
    wrap64 n = n := by
  unfold wrap64
  omega

/-- `PaginatedResponse[T]` from types.go: data plus total/limit/offset
counters (Go `int`, a signed 64-bit integer whose values lie in
[-2^63, 2^63)). -/
structure PaginatedResponse (T : Type) where
  Data : List T
  Total : Int
  Limit : Int
  Offset : Int

/-- `PaginatedResponse.HasMore`: `(p.Offset + p.Limit) < p.Total`, the
addition wrapping as Go `int` addition does on overflow. -/
def PaginatedResponse.HasMore {T : Type} (p : PaginatedResponse T) : Bool :=
  decide (wrap64 (p.Offset + p.Limit) < p.Total)

/-- `PaginatedResponse.NextOffset`: `p.Offset + p.Limit` with the same
wrapping addition. -/
def PaginatedResponse.NextOffset {T : Type} (p : PaginatedResponse T) : Int :=
  wrap64 (p.Offset + p.Limit)

/-- The outcome of `New`: a configuration error (the two `fmt.Errorf` sites;
the quote characters of the second message are elided) or a constructed
client, recorded by its api key and base URL. -/
inductive NewResult where
  | configError (msg : String)
  | client (apiKey : String) (baseURL : String)

/-- `strings.HasPrefix`, modelled on the character sequence of the two
strings. -/
def hasPrefix (s pre : String) : Bool := pre.data.isPrefixOf s.data

/-- `New` without options: reject an empty key, reject a key that has neither
recognized prefix, otherwise build the client with the default base URL.  The
function is pure: no network call occurs. -/
def NewClient (apiKey : String) : NewResult :=
  if apiKey = "" then .configError "API key is required"
  else if !hasPrefix apiKey "ek_live_" && !hasPrefix apiKey "ek_test_" then
    .configError "invalid API key format: must start with ek_live_ or ek_test_"
  else .client apiKey DefaultBaseURL

/-- `CreateCallParams` from the voice file (field names as in the source;
`Metadata` modelled as an association list). -/
structure CreateCallParams where
  To : String
  From : String
  TTSMessage : String
  AudioURL : String
  Voice : String
  Language : String
  Record : Bool
  MachineDetection : Bool
  WebhookURL : String
  Metadata : List (String × String)

/-- What `VoiceAPI.Create` did before (or instead of) touching the network: an
immediate validation error, or a delegated POST with the given path and body
struct. -/
inductive CreateOutcome where
  | paramError (msg : String)
  | request (path : String) (body : CreateCallParams)

/-- The client-side part of `VoiceAPI.Create`: validate that a TTS message or
an audio URL is present, write the `Voice`/`Language` defaults into the
caller's params struct, then delegate `POST /calls` with that struct as the
body.  The first component of the result is the caller's params struct after
the call returns (the Go code mutates it through the pointer). -/
def VoiceCreate (params : CreateCallParams) : CreateCallParams × CreateOutcome :=
  if params.TTSMessage = "" ∧ params.AudioURL = "" then
    (params, .paramError "either TTSMessage or AudioURL is required")
  else
    let params1 :=
      if params.Voice = "" then { params with Voice := "alloy" } else params
    let params2 :=
      if params1.Language = "" then { params1 with Language := "en-US" } else params1
    (params2, .request "/calls" params2)

/-! ## Helper lemmas shared by several claims -/

/-- When the rate-limit wait succeeds and the body (if any) marshals, the
request reduces to the send-and-handle core. -/
theorem clientRequest_eq_core {α β : Type} (body : Option β)
    (marshal : β → Option String) (hm : marshalOK body marshal)
    (doReq : Nat → TransportResult) (uenv : String → Option ErrorEnvelope)
    (udest : String → Option α) (dest : Option α) :
    clientRequest true body marshal doReq uenv udest dest =
      requestCore doReq uenv udest dest := by
  cases body with
  | none => rfl
  | some b =>
    have h := hm b rfl
    cases hmb : marshal b with
    | none => rw [hmb] at h; simp at h
    | some s => simp [clientRequest, hmb]

/-- If every attempt yields the same response, the loop ends holding that
response (whether or not its status is retryable). -/
theorem retryFrom_const_response (doReq : Nat → TransportResult)
    (resp : HTTPResponse) (h : ∀ n, doReq n = .response resp)
    (attempt remaining : Nat) :
    (retryFrom doReq attempt remaining).outcome = .response resp := by
  induction remaining generalizing attempt with
  | zero => simp [retryFrom, h]
  | succ r ih =>
    simp only [retryFrom, h]
    split
    · exact ih (attempt + 1)
    · rfl

/-- A status below 400 is not retryable, so the loop returns the first such
response without sleeping. -/
theorem retryFrom_nonretryable (doReq : Nat → TransportResult)
    (resp : HTTPResponse) (h0 : doReq 0 = .response resp)
    (hlt : resp.statusCode < 400) :
    executeWithRetries doReq = ⟨.response resp, 1, []⟩ := by
  have hcond : ¬(resp.statusCode = 429 ∨ 500 ≤ resp.statusCode) := by omega
  simp [executeWithRetries, maxRetries, retryFrom, h0, hcond]

/-! ## Claims about pagination, construction, and the voice facade -/

/-- Claim C4 counterexample: at offset = limit = 2^62 and total = 0 — all
non-negative — the Go `int` addition wraps to -2^63, so `HasMore` returns
true although offset + limit < total is false mathematically, and
`NextOffset` is the wrapped negative value, not offset + limit. -/
theorem paginated_wraps_at_large_offsets :
    ((0 : Int) ≤ 0 ∧ (0 : Int) ≤ (2 ^ 62 : Int) ∧ (0 : Int) ≤ (2 ^ 62 : Int)) ∧
    (PaginatedResponse.mk ([] : List Nat) 0 (2 ^ 62) (2 ^ 62)).HasMore = true ∧
    ¬((2 ^ 62 : Int) + 2 ^ 62 < 0) ∧
    (PaginatedResponse.mk ([] : List Nat) 0 (2 ^ 62) (2 ^ 62)).NextOffset ≠
      (2 ^ 62 : Int) + 2 ^ 62 := by
  refine ⟨⟨by norm_num, by norm_num, by norm_num⟩, ?_, by norm_num, ?_⟩
  · norm_num [PaginatedResponse.HasMore, wrap64]
  · norm_num [PaginatedResponse.NextOffset, wrap64]

/-- Claim C4 as amended: for every `PaginatedResponse` whose total, limit,
and offset are non-negative and whose sum offset + limit stays below 2^63
(so the Go `int` addition does not overflow), `HasMore` is true iff
`offset + limit < total`, and `NextOffset` equals `offset + limit`. -/
theorem paginated_hasMore_nextOffset_no_overflow {T : Type}
    (p : PaginatedResponse T)
    (h1 : 0 ≤ p.Total) (h2 : 0 ≤ p.Limit) (h3 : 0 ≤ p.Offset)
    (h4 : p.Offset + p.Limit < 2 ^ 63) :
    (p.HasMore = true ↔ p.Offset + p.Limit < p.Total) ∧
      p.NextOffset = p.Offset + p.Limit := by
  have hw : wrap64 (p.Offset + p.Limit) = p.Offset + p.Limit :=
    wrap64_eq_self _ (by omega) h4
  constructor
  · simp [PaginatedResponse.HasMore, hw]
  · simp [PaginatedResponse.NextOffset, hw]

/-- Witness for the amended C4 at total 10, limit 5, offset 0. -/
theorem paginated_hasMore_nextOffset_no_overflow_witness :
    ((0 : Int) ≤ 10 ∧ (0 : Int) ≤ 5 ∧ (0 : Int) ≤ 0 ∧
        (0 : Int) + 5 < 2 ^ 63) ∧
      ((PaginatedResponse.mk ([] : List Nat) 10 5 0).HasMore = true ↔
        (0 : Int) + 5 < 10) ∧
      (PaginatedResponse.mk ([] : List Nat) 10 5 0).NextOffset = 0 + 5 :=
  ⟨⟨by norm_num, by norm_num, by norm_num, by norm_num⟩,
    paginated_hasMore_nextOffset_no_overflow
      (PaginatedResponse.mk ([] : List Nat) 10 5 0)
      (by norm_num) (by norm_num) (by norm_num) (by norm_num)⟩

/-- Claim C5: `New` rejects an empty key and any key with neither recognized
prefix with a configuration error, before any network call (the model is
pure, so no network is involved), and accepts every key with one of the two
prefixes. -/
theorem new_key_validation (apiKey : String) :
    ((apiKey = "" ∨
        (hasPrefix apiKey "ek_live_" = false ∧
          hasPrefix apiKey "ek_test_" = false)) →
      ∃ msg, NewClient apiKey = .configError msg) ∧
    ((hasPrefix apiKey "ek_live_" = true ∨
        hasPrefix apiKey "ek_test_" = true) →
      NewClient apiKey = .client apiKey DefaultBaseURL) := by
  constructor
  · rintro (h | ⟨h1, h2⟩)
    · exact ⟨"API key is required", by simp [NewClient, h]⟩
    · by_cases he : apiKey = ""
      · exact ⟨"API key is required", by simp [NewClient, he]⟩
      · exact ⟨"invalid API key format: must start with ek_live_ or ek_test_",
          by simp [NewClient, he, h1, h2]⟩
  · rintro (h | h) <;>
    · have he : apiKey ≠ "" := by
        intro hrfl
        rw [hrfl] at h
        exact absurd h (by decide)
      simp [NewClient, he, h]

/-- Witness for C5: a key with a wrong prefix is rejected, a test-mode key is
accepted. -/
theorem new_key_validation_witness :
    (∃ msg, NewClient "sk_bad" = .configError msg) ∧
      NewClient "ek_test_abc" = .client "ek_test_abc" DefaultBaseURL :=
  ⟨(new_key_validation "sk_bad").1 (Or.inr ⟨by decide, by decide⟩),
    (new_key_validation "ek_test_abc").2 (Or.inr (by decide))⟩

/-- Claim C8: `VoiceAPI.Create` with both `TTSMessage` and `AudioURL` empty
returns a validation error and delegates nothing (the outcome carries no
request, and the params are untouched); with at least one supplied, the
client-side check passes and the request is delegated to the executor. -/
theorem voiceCreate_requires_message_or_audio (p : CreateCallParams) :
    (p.TTSMessage = "" ∧ p.AudioURL = "" →
      (VoiceCreate p).2 = .paramError "either TTSMessage or AudioURL is required" ∧
        (VoiceCreate p).1 = p) ∧
    (¬(p.TTSMessage = "" ∧ p.AudioURL = "") →
      ∃ q, (VoiceCreate p).2 = .request "/calls" q) := by
  constructor
  · intro h
    simp [VoiceCreate, h]
  · intro h
    exact ⟨(VoiceCreate p).1, by simp [VoiceCreate, if_neg h]⟩

/-- Witness for C8: both inputs empty yields the error; a TTS message alone
passes the check. -/
theorem voiceCreate_requires_message_or_audio_witness :
    ((VoiceCreate ⟨"+1", "+2", "", "", "", "", false, false, "", []⟩).2 =
        .paramError "either TTSMessage or AudioURL is required" ∧
      (VoiceCreate ⟨"+1", "+2", "", "", "", "", false, false, "", []⟩).1 =
        ⟨"+1", "+2", "", "", "", "", false, false, "", []⟩) ∧
    ∃ q, (VoiceCreate ⟨"+1", "+2", "hi", "", "", "", false, false, "", []⟩).2 =
      .request "/calls" q :=
  ⟨(voiceCreate_requires_message_or_audio
      ⟨"+1", "+2", "", "", "", "", false, false, "", []⟩).1 ⟨rfl, rfl⟩,
    (voiceCreate_requires_message_or_audio
      ⟨"+1", "+2", "hi", "", "", "", false, false, "", []⟩).2
      (by simp)⟩

/-- Claim C10: on every call that passes the client-side check (so a request
is sent), `VoiceAPI.Create` writes the defaults into the caller's params
struct — `Voice` becomes "alloy" when it was empty, `Language` becomes
"en-US" when it was empty — before the request is sent (the delegated body is
that same mutated struct), these writes remain visible to the caller, and all
other fields are unchanged. -/
theorem voiceCreate_mutates_defaults (p : CreateCallParams)
    (h : ¬(p.TTSMessage = "" ∧ p.AudioURL = "")) :
    ((VoiceCreate p).1.Voice = if p.Voice = "" then "alloy" else p.Voice) ∧
    ((VoiceCreate p).1.Language = if p.Language = "" then "en-US" else p.Language) ∧
    (VoiceCreate p).1.To = p.To ∧
    (VoiceCreate p).1.From = p.From ∧
    (VoiceCreate p).1.TTSMessage = p.TTSMessage ∧
    (VoiceCreate p).1.AudioURL = p.AudioURL ∧
    (VoiceCreate p).1.Record = p.Record ∧
    (VoiceCreate p).1.MachineDetection = p.MachineDetection ∧
    (VoiceCreate p).1.WebhookURL = p.WebhookURL ∧
    (VoiceCreate p).1.Metadata = p.Metadata ∧
    (VoiceCreate p).2 = .request "/calls" (VoiceCreate p).1 := by
  simp only [VoiceCreate, if_neg h]
  by_cases hv : p.Voice = "" <;> by_cases hl : p.Language = "" <;>
    simp [hv, hl]

/-- Witness for C10: a call with a TTS message, empty `Voice`, and a set
`Language` gets `Voice := "alloy"` while `Language` stays. -/
theorem voiceCreate_mutates_defaults_witness :
    (VoiceCreate ⟨"+1", "+2", "hi", "", "", "fr", true, false, "w", [("k", "v")]⟩).1.Voice = "alloy" ∧
    (VoiceCreate ⟨"+1", "+2", "hi", "", "", "fr", true, false, "w", [("k", "v")]⟩).1.Language = "fr" := by
  have h := voiceCreate_mutates_defaults
    ⟨"+1", "+2", "hi", "", "", "fr", true, false, "w", [("k", "v")]⟩
    (by simp)
  exact ⟨by simpa using h.1, by simpa using h.2.1⟩

/-! ## Claims about the request executor -/

/-- With every attempt answering the same response of status >= 400, the
request ends in the classified error for that response. -/
theorem requestCore_error {α : Type} (doReq : Nat → TransportResult)
    (resp : HTTPResponse) (hdo : ∀ n, doReq n = .response resp)
    (h400 : 400 ≤ resp.statusCode) (uenv : String → Option ErrorEnvelope)
    (udest : String → Option α) (dest : Option α) :
    (requestCore doReq uenv udest dest).result =
      .apiError (handleError uenv resp.statusCode resp.body resp.requestID) := by
  have hout : (executeWithRetries doReq).outcome = .response resp :=
    retryFrom_const_response doReq resp hdo 0 maxRetries
  simp [requestCore, hout, h400]

/-- Claim C7: when the caller's cancellation fires during the rate-limit
permit wait, the call returns the rate-limiter error immediately — zero HTTP
sends, zero sleeps — and that error is a constructor distinct from every
server-side error (typed API errors and transport failures). -/
theorem rate_limiter_cancel_immediate {α β : Type} (body : Option β)
    (marshal : β → Option String) (doReq : Nat → TransportResult)
    (uenv : String → Option ErrorEnvelope) (udest : String → Option α)
    (dest : Option α) :
    clientRequest false body marshal doReq uenv udest dest =
      ⟨.rateLimiterError, 0, []⟩ ∧
    (∀ e : APIError, (RequestResult.rateLimiterError : RequestResult α) ≠ .apiError e) ∧
    (∀ msg : String,
      (RequestResult.rateLimiterError : RequestResult α) ≠ .transportError msg) := by
  refine ⟨rfl, fun e h => ?_, fun m h => ?_⟩ <;> cases h

/-- Claim C3: for a final status >= 400 whose body the envelope codec cannot
decode (an empty body included — `json.Unmarshal` fails on empty input), the
executor still returns the generic typed error carrying the status code and
the request id from the header, not a decoding failure or any other error. -/
theorem malformed_body_generic_error {α β : Type} (resp : HTTPResponse)
    (doReq : Nat → TransportResult) (hdo : ∀ n, doReq n = .response resp)
    (uenv : String → Option ErrorEnvelope) (henv : uenv resp.body = none)
    (h400 : 400 ≤ resp.statusCode)
    (body : Option β) (marshal : β → Option String) (hm : marshalOK body marshal)
    (udest : String → Option α) (dest : Option α) :
    (clientRequest true body marshal doReq uenv udest dest).result =
      .apiError (.base ⟨"API request failed", resp.statusCode, "UNKNOWN_ERROR",
        resp.requestID⟩) := by
  rw [clientRequest_eq_core body marshal hm doReq uenv udest dest,
    requestCore_error doReq resp hdo h400 uenv udest dest]
  simp [handleError, henv]

/-- Witness for C3: a 500 with an empty body (the codec fails on it) yields
the generic error with status 500 and the header's request id. -/
theorem malformed_body_generic_error_witness :
    (clientRequest (α := Unit) (β := Unit) true none (fun _ => none)
        (fun _ => .response ⟨500, "", "rid-3"⟩) (fun _ => none)
        (fun _ => none) none).result =
      .apiError (.base ⟨"API request failed", 500, "UNKNOWN_ERROR", "rid-3"⟩) :=
  malformed_body_generic_error ⟨500, "", "rid-3"⟩ _ (fun _ => rfl) _ rfl
    (by decide) none _ (fun _ h => by cases h) _ none

/-- Claim C6: a success status (200-299) with an empty body returns success
with the caller's destination exactly as supplied, and no decoding happens
(the result does not depend on the destination codec at all, which is
universally quantified here). -/
theorem empty_body_success_dest_unchanged {α β : Type} (resp : HTTPResponse)
    (doReq : Nat → TransportResult) (hdo : ∀ n, doReq n = .response resp)
    (h200 : 200 ≤ resp.statusCode) (h299 : resp.statusCode ≤ 299)
    (hbody : resp.body = "")
    (body : Option β) (marshal : β → Option String) (hm : marshalOK body marshal)
    (uenv : String → Option ErrorEnvelope) (udest : String → Option α)
    (dest : Option α) :
    (clientRequest true body marshal doReq uenv udest dest).result =
      .success dest := by
  rw [clientRequest_eq_core body marshal hm doReq uenv udest dest]
  have hloop : executeWithRetries doReq = ⟨.response resp, 1, []⟩ :=
    retryFrom_nonretryable doReq resp (hdo 0) (by omega)
  have hge : ¬ 400 ≤ resp.statusCode := by omega
  cases dest with
  | none => simp [requestCore, hloop, hge]
  | some d => simp [requestCore, hloop, hge, hbody]

/-- Witness for C6: a 200 with empty body leaves a concrete destination value
untouched, for an arbitrary codec. -/
theorem empty_body_success_dest_unchanged_witness :
    (clientRequest (β := Unit) true none (fun _ => none)
        (fun _ => .response ⟨200, "", "rid-6"⟩) (fun _ => none)
        (fun _ => some 99) (some 7)).result = .success (some 7) :=
  empty_body_success_dest_unchanged ⟨200, "", "rid-6"⟩ _ (fun _ => rfl)
    (by decide) (by decide) rfl none _ (fun _ h => by cases h) _ _ (some 7)

/-- Claim C9 counterexample: a 302 response with a non-empty body the
destination codec rejects makes the executor return the decode error — an
error, not success — refuting that every sub-400 response returns no
error. -/
theorem sub_400_decode_failure_returns_error :
    (clientRequest (β := Unit) true none (fun _ => none)
        (fun _ => .response ⟨302, "<html>", "rid-9c"⟩) (fun _ => none)
        (fun _ => (none : Option Nat)) (some 0)).result = .decodeError ∧
    ∀ d : Option Nat, (RequestResult.decodeError : RequestResult Nat) ≠
      .success d := by
  refine ⟨rfl, fun d h => ?_⟩
  cases h

/-- Claim C9 as amended: every final status strictly below 400 — 3xx
included — bypasses error classification entirely (the result is never a
typed API error): a nil destination or an empty body returns success with
the destination as supplied, a non-empty body that decodes returns success
with the decoded value, and a non-empty body that fails to decode returns a
decode error, not a typed API error. -/
theorem sub_400_success_path {α β : Type} (resp : HTTPResponse)
    (doReq : Nat → TransportResult) (hdo : ∀ n, doReq n = .response resp)
    (hlt : resp.statusCode < 400)
    (uenv : String → Option ErrorEnvelope) (udest : String → Option α)
    (body : Option β) (marshal : β → Option String) (hm : marshalOK body marshal)
    (dest : Option α) :
    ((clientRequest true body marshal doReq uenv udest dest).result =
      match dest with
      | none => .success none
      | some d =>
        if 0 < resp.body.length then
          match udest resp.body with
          | none => .decodeError
          | some v => .success (some v)
        else .success (some d)) ∧
    ∀ e : APIError,
      (clientRequest true body marshal doReq uenv udest dest).result ≠
        .apiError e := by
  rw [clientRequest_eq_core body marshal hm doReq uenv udest dest]
  have hloop : executeWithRetries doReq = ⟨.response resp, 1, []⟩ :=
    retryFrom_nonretryable doReq resp (hdo 0) hlt
  have hge : ¬ 400 ≤ resp.statusCode := by omega
  have hcore : (requestCore doReq uenv udest dest).result =
      match dest with
      | none => .success none
      | some d =>
        if 0 < resp.body.length then
          match udest resp.body with
          | none => .decodeError
          | some v => .success (some v)
        else .success (some d) := by
    cases dest with
    | none => simp [requestCore, hloop, hge]
    | some d =>
      by_cases hb : 0 < resp.body.length
      · cases hu : udest resp.body <;> simp [requestCore, hloop, hge, hb, hu]
      · simp [requestCore, hloop, hge, hb]
  refine ⟨hcore, fun e h => ?_⟩
  rw [hcore] at h
  cases dest with
  | none => cases h
  | some d =>
    by_cases hb : 0 < resp.body.length
    · cases hu : udest resp.body <;> simp [hb, hu] at h
    · simp [hb] at h

/-- Witness for the amended C9 at a 302 with a decodable body, and at a nil
destination. -/
theorem sub_400_success_path_witness :
    (clientRequest (β := Unit) true none (fun _ => none)
        (fun _ => .response ⟨302, "x", "rid-9"⟩) (fun _ => none)
        (fun _ => some 7) (some 0)).result = .success (some 7) ∧
    (clientRequest (β := Unit) true none (fun _ => none)
        (fun _ => .response ⟨302, "x", "rid-9"⟩) (fun _ => none)
        (fun _ => some 7) none).result = .success (none : Option Nat) := by
  have h1 := sub_400_success_path (β := Unit) ⟨302, "x", "rid-9"⟩
    (fun _ => .response ⟨302, "x", "rid-9"⟩) (fun _ => rfl) (by decide)
    (fun _ => none) (fun _ => some 7) none (fun _ => none)
    (fun b hb => by cases hb) (some 0)
  have h2 := sub_400_success_path (β := Unit) ⟨302, "x", "rid-9"⟩
    (fun _ => .response ⟨302, "x", "rid-9"⟩) (fun _ => rfl) (by decide)
    (fun _ => none) (fun _ => some 7) none (fun _ => none)
    (fun b hb => by cases hb) (none : Option Nat)
  exact ⟨by simpa using h1.1, by simpa using h2.1⟩

/-- Claim C1 counterexample: a 400 response whose well-formed envelope
carries the machine code "FIELD_MISSING" yields a ValidationError whose code
field is the constant "VALIDATION_ERROR" — the envelope's code is discarded,
refuting that the machine code is populated from the envelope. -/
theorem validation_code_not_from_envelope :
    (clientRequest (α := Unit) (β := Unit) true none (fun _ => none)
        (fun _ => .response ⟨400, "body", "req-1"⟩)
        (fun _ => some ⟨"invalid recipient", "FIELD_MISSING", [], 0⟩)
        (fun _ => none) none).result =
      .apiError (.validation
        ⟨"invalid recipient", 400, "VALIDATION_ERROR", "req-1"⟩ []) ∧
    "VALIDATION_ERROR" ≠ "FIELD_MISSING" :=
  ⟨rfl, by decide⟩

/-- Claim C1 as amended: for a final status in 400-599 whose body decodes as
a well-formed envelope, the executor returns exactly the corresponding typed
error — 400 a ValidationError with the envelope's detail map, 401 an
AuthenticationError, 404 a NotFoundError, 429 a RateLimitError with the
envelope's retry-after seconds, anything else the generic error — with the
message from the envelope and the request id from the x-request-id header;
the machine code is the fixed constant "VALIDATION_ERROR",
"AUTHENTICATION_ERROR", or "RATE_LIMIT_EXCEEDED" for 400, 401, 429
respectively, and is taken from the envelope only for 404 and the generic
case. -/
theorem error_classification_mapping {α β : Type} (resp : HTTPResponse)
    (env : ErrorEnvelope) (doReq : Nat → TransportResult)
    (hdo : ∀ n, doReq n = .response resp)
    (uenv : String → Option ErrorEnvelope) (henv : uenv resp.body = some env)
    (h400 : 400 ≤ resp.statusCode) (h599 : resp.statusCode ≤ 599)
    (body : Option β) (marshal : β → Option String) (hm : marshalOK body marshal)
    (udest : String → Option α) (dest : Option α) :
    (clientRequest true body marshal doReq uenv udest dest).result =
      .apiError (
        if resp.statusCode = 400 then
          .validation ⟨env.message, 400, "VALIDATION_ERROR", resp.requestID⟩
            env.details
        else if resp.statusCode = 401 then
          .authentication ⟨env.message, 401, "AUTHENTICATION_ERROR", resp.requestID⟩
        else if resp.statusCode = 404 then
          .notFound ⟨env.message, 404, env.code, resp.requestID⟩
        else if resp.statusCode = 429 then
          .rateLimit ⟨env.message, 429, "RATE_LIMIT_EXCEEDED", resp.requestID⟩
            env.retryAfter
        else .base ⟨env.message, resp.statusCode, env.code, resp.requestID⟩) := by
  rw [clientRequest_eq_core body marshal hm doReq uenv udest dest,
    requestCore_error doReq resp hdo h400 uenv udest dest]
  simp [handleError, henv]

/-- Witness for the amended C1 at a 404 whose envelope code is surfaced. -/
theorem error_classification_mapping_witness :
    (clientRequest (α := Unit) (β := Unit) true none (fun _ => none)
        (fun _ => .response ⟨404, "body", "req-2"⟩)
        (fun _ => some ⟨"no such email", "EMAIL_NOT_FOUND", [], 0⟩)
        (fun _ => none) none).result =
      .apiError (.notFound ⟨"no such email", 404, "EMAIL_NOT_FOUND", "req-2"⟩) := by
  have h := error_classification_mapping (α := Unit) (β := Unit)
    ⟨404, "body", "req-2"⟩ ⟨"no such email", "EMAIL_NOT_FOUND", [], 0⟩
    (fun _ => .response ⟨404, "body", "req-2"⟩) (fun _ => rfl)
    (fun _ => some ⟨"no such email", "EMAIL_NOT_FOUND", [], 0⟩) rfl
    (by decide) (by decide) none (fun _ => none) (fun b hb => by cases hb)
    (fun _ => none) none
  simpa using h

/-- Claim C2: against a transport that fails every attempt, and against a
server that answers every attempt with a 429 or 5xx, the executor performs
exactly 4 sends (1 initial + 3 retries) sleeping 1s, 2s, 4s between
consecutive attempts, then gives up: the transport case returns the error
wrapping the last (fourth) underlying failure, and the status case falls
through to error classification of the last received response. -/
theorem retry_exhaustion_four_attempts {α β : Type}
    (msgs : Nat → String) (resps : Nat → HTTPResponse)
    (hretry : ∀ n, (resps n).statusCode = 429 ∨
      (500 ≤ (resps n).statusCode ∧ (resps n).statusCode ≤ 599))
    (body : Option β) (marshal : β → Option String) (hm : marshalOK body marshal)
    (uenv : String → Option ErrorEnvelope) (udest : String → Option α)
    (dest : Option α) :
    clientRequest true body marshal (fun n => .failure (msgs n)) uenv udest dest =
      ⟨.transportError (msgs 3), 4, [1, 2, 4]⟩ ∧
    clientRequest true body marshal (fun n => .response (resps n)) uenv udest dest =
      ⟨.apiError (handleError uenv (resps 3).statusCode (resps 3).body
          (resps 3).requestID), 4, [1, 2, 4]⟩ := by
  have hcond : ∀ n, ((resps n).statusCode = 429 ∨ 500 ≤ (resps n).statusCode) := by
    intro n
    rcases hretry n with h | ⟨h, _⟩
    · exact Or.inl h
    · exact Or.inr h
  have h400 : 400 ≤ (resps 3).statusCode := by
    rcases hretry 3 with h | ⟨h, _⟩ <;> omega
  constructor
  · rw [clientRequest_eq_core body marshal hm _ uenv udest dest]
    have hloop : executeWithRetries (fun n => .failure (msgs n)) =
        ⟨.failure (msgs 3), 4, [1, 2, 4]⟩ := rfl
    simp [requestCore, hloop]
  · rw [clientRequest_eq_core body marshal hm _ uenv udest dest]
    have hloop : executeWithRetries (fun n => .response (resps n)) =
        ⟨.response (resps 3), 4, [1, 2, 4]⟩ := by
      simp only [executeWithRetries, maxRetries, retryFrom]
      rw [if_pos (hcond 0), if_pos (hcond 1), if_pos (hcond 2)]
      norm_num
    simp [requestCore, hloop, h400]

/-- Witness for C2: a transport refusing the connection on all four attempts,
and a server answering 503 on all four attempts. -/
theorem retry_exhaustion_four_attempts_witness :
    clientRequest (α := Unit) (β := Unit) true none (fun _ => none)
        (fun _ => .failure "connection refused") (fun _ => none)
        (fun _ => none) none =
      ⟨.transportError "connection refused", 4, [1, 2, 4]⟩ ∧
    clientRequest (α := Unit) (β := Unit) true none (fun _ => none)
        (fun _ => .response ⟨503, "", "rid-2"⟩) (fun _ => none)
        (fun _ => none) none =
      ⟨.apiError (.base ⟨"API request failed", 503, "UNKNOWN_ERROR", "rid-2"⟩),
        4, [1, 2, 4]⟩ := by
  have h := retry_exhaustion_four_attempts (α := Unit) (β := Unit)
    (fun _ => "connection refused") (fun _ => ⟨503, "", "rid-2"⟩)
    (by intro n; simp) none (fun _ => none)
    (fun b hb => by cases hb) (fun _ => none) (fun _ => none) none
  simpa using h
